import Mathlib

/-!
# Patrolio patrol-session service: shallow embedding

Shallow embedding of `src/main.py` (FastAPI service over a Supabase table
`patrol_sessions`, Brevo e-mail delivery).

Modelling conventions:

* The Supabase table is a `List Session`: the rows of `patrol_sessions` in
  the order the backend enumerates them.  `insert` appends a row; `update`
  maps over matching rows; `delete` filters them out; `select ... .execute()`
  filters, and `response.data[0]` is the head of the filtered list.
* Timestamps are `Int` (the `now_iso` helper truncates microseconds in the
  source; here the clock is already at that resolution, so `now_iso` is the
  identity on the request's clock reading).  Each request handler receives
  the clock value `t` observed while it runs.
* E-mail dispatch is queued by `BackgroundTasks.add_task(send_email, ...)`;
  we record the queued messages as a `List Email` in the order they are
  queued, rather than performing I/O.
* `list(set(xs))` in Python enumerates the distinct elements in an
  unspecified order; we model it by `List.dedup`, a deterministic
  representative — the claims below use only its length and membership,
  which are order-independent.
* HTTP 404 (`HTTPException(status_code=404, ...)`) is the error value
  `ApiError.notFound` of an `Except`.
-/

/-- Error raised by the endpoints via `HTTPException(status_code=404, ...)`. -/
inductive ApiError where
  | notFound
deriving DecidableEq

/-- A row of the `patrol_sessions` table, with the columns the service
reads and writes. -/
structure Session where
  id : String
  first_name : String
  last_name : String
  sender_email : String
  receiver_email : String
  start_time : Int
  photo_time : Int
  status : String
deriving DecidableEq

/-- Request body of `POST /start_patrol` (pydantic model `StartPatrol`). -/
structure StartPatrol where
  first_name : String
  last_name : String
  sender_email : String
  receiver_email : String
deriving DecidableEq

/-- Request body of `POST /get_session_id` (pydantic model `LookupPatrol`). -/
structure LookupPatrol where
  first_name : String
  last_name : String
  sender_email : String
  receiver_email : String
deriving DecidableEq

/-- One e-mail handed to `send_email(to_emails, subject, body)`: the source
normalises a single string recipient to a one-element list, so `to` is
always a list here. -/
structure Email where
  to_emails : List String
  subject : String
  body : String
deriving DecidableEq

/-- `now_iso()`: `datetime.utcnow().replace(microsecond=0).isoformat()`.
The clock parameter is already at second resolution, so this is the
identity reading of the request clock. -/
def now_iso (t : Int) : Int := t

/-- `POST /start_patrol`: inserts a fresh row (id allocated by the
database, passed here as `newId`) with `start_time` and `photo_time` both
set by `now_iso()` during the request, and `status = "active"`.  Returns
the new table and `response.data[0]`, the inserted row. -/
def start_patrol (st : List Session) (data : StartPatrol) (newId : String)
    (t : Int) : List Session × Session :=
  let row : Session :=
    { id := newId
      first_name := data.first_name
      last_name := data.last_name
      sender_email := data.sender_email
      receiver_email := data.receiver_email
      start_time := now_iso t
      photo_time := now_iso t
      status := "active" }
  (st ++ [row], row)

/-- The row transformation of the `update({photo_time: now_iso()})
.eq("id", session_id)` statement: rows with the given id get a fresh
`photo_time`, all other rows are untouched. -/
def pauseUpd (session_id : String) (t : Int) (s : Session) : Session :=
  if s.id = session_id then { s with photo_time := now_iso t } else s

/-- `POST /pause_patrol/{session_id}`: `update({photo_time: now_iso()})
.eq("id", session_id)`.  404 when no row matched; otherwise the new table
and `response.data[0]`, the first updated row. -/
def pause_patrol (st : List Session) (session_id : String) (t : Int) :
    Except ApiError (List Session × Session) :=
  let updated := st.map (pauseUpd session_id t)
  match updated.filter (fun s => s.id == session_id) with
  | [] => .error .notFound
  | d :: _ => .ok (updated, d)

/-- `POST /end_patrol/{session_id}`: `delete().eq("id", session_id)`.
404 when no row matched; otherwise the table without those rows and
`response.data[0]`, the first deleted row. -/
def end_patrol (st : List Session) (session_id : String) :
    Except ApiError (List Session × Session) :=
  match st.filter (fun s => s.id == session_id) with
  | [] => .error .notFound
  | d :: _ => .ok (st.filter (fun s => !(s.id == session_id)), d)

/-- `GET /photo_time/{session_id}`: selects `photo_time` of the rows with
that id; 404 when none, else `response.data[0]["photo_time"]`. -/
def get_photo_time (st : List Session) (session_id : String) :
    Except ApiError Int :=
  match st.filter (fun s => s.id == session_id) with
  | [] => .error .notFound
  | s :: _ => .ok s.photo_time

/-- The row filter of `POST /get_session_id`: all four identity columns
equal to the query and `status = "active"`. -/
def matchesQuery (q : LookupPatrol) (s : Session) : Bool :=
  s.first_name == q.first_name && s.last_name == q.last_name &&
    s.sender_email == q.sender_email && s.receiver_email == q.receiver_email &&
    s.status == "active"

/-- `POST /get_session_id`: selects the rows matching the query; 404 when
none, else `response.data[0]` — the first matching row in the backend's
enumeration order (the query sets no `order`). -/
def get_session_id (st : List Session) (query : LookupPatrol) :
    Except ApiError Session :=
  match st.filter (matchesQuery query) with
  | [] => .error .notFound
  | s :: _ => .ok s

/-- The result-size cap `.limit(100)` of the stale-session query in
`GET /inactive_sessions/{minutes}`. -/
def scanLimit : Nat := 100

/-- The stale-session query of `GET /inactive_sessions/{minutes}`:
`photo_time < (utcnow() - minutes).isoformat()`, `status = "active"`,
`limit(100)`. -/
def expiredSessions (st : List Session) (minutes : Int) (t : Int) :
    List Session :=
  let cutoff := t - minutes * 60
  (st.filter fun s =>
    decide (s.photo_time < cutoff) && s.status == "active").take scanLimit

/-- Display line of one expired session in the summary body:
`f"{s['first_name']} {s['last_name']} ({s['sender_email']})"`. -/
def displayLine (s : Session) : String :=
  s.first_name ++ " " ++ s.last_name ++ " (" ++ s.sender_email ++ ")"

/-- The e-mail queued for the silent senders: one message to
`list(set(sender_emails))` with a fixed subject and body, queued only when
the recipient list is non-empty. -/
def directEmails (st : List Session) (minutes : Int) (t : Int) : List Email :=
  let sender_emails := ((expiredSessions st minutes t).map
    (fun s => s.sender_email)).dedup
  if sender_emails = [] then []
  else [{ to_emails := sender_emails
          subject := "Patrolio: Gap in Patrol Session"
          body := "You have been found inactive for the last few minutes. Please keep sending photos." }]

/-- The summary e-mail: queued only when the expired set is non-empty,
always to the single hard-coded address, listing every expired session's
display line. -/
def summaryEmails (st : List Session) (minutes : Int) (t : Int) : List Email :=
  let expired_sessions := expiredSessions st minutes t
  if expired_sessions = [] then []
  else [{ to_emails := ["shivamminocha84@gmail.com"]
          subject := "Patrolio: Inactive Sessions (>" ++ toString minutes ++ " mins)"
          body := "The following guards have been inactive:\n\n" ++
            String.intercalate "\n" (expired_sessions.map displayLine) }]

/-- The JSON object returned by `GET /inactive_sessions/{minutes}`: it has
exactly the two keys `minutes_threshold` and `expired_sessions_count`. -/
structure ScanResult where
  minutes_threshold : Int
  expired_sessions_count : Nat
deriving DecidableEq

/-- `GET /inactive_sessions/{minutes}`: runs the stale query, queues the
direct e-mail then the summary e-mail as background tasks, and returns the
two-field summary.  The handler only executes a `select`, so the table
comes back unchanged as the third component. -/
def inactive_sessions (st : List Session) (minutes : Int) (t : Int) :
    ScanResult × List Email × List Session :=
  ({ minutes_threshold := minutes
     expired_sessions_count := (expiredSessions st minutes t).length },
   directEmails st minutes t ++ summaryEmails st minutes t,
   st)

/-- The JSON object returned by `GET /cleanup_sessions/{minutes}`. -/
structure CleanupResult where
  minutes_threshold : Int
  deleted_count : Nat
  deleted_sessions : List Session
deriving DecidableEq

/-- `GET /cleanup_sessions/{minutes}`: `delete().lt("photo_time", cutoff)`
with `cutoff = utcnow() - minutes`; note the delete carries no `status`
filter.  Returns the remaining table and the response listing the deleted
rows. -/
def cleanup_sessions (st : List Session) (minutes : Int) (t : Int) :
    List Session × CleanupResult :=
  let cutoff := t - minutes * 60
  let deleted := st.filter fun s => decide (s.photo_time < cutoff)
  let remaining := st.filter fun s => !decide (s.photo_time < cutoff)
  (remaining,
   { minutes_threshold := minutes
     deleted_count := deleted.length
     deleted_sessions := deleted })

/-- `GET /all_session_ids` and `GET /sessions` both only select ids; the
table is returned unchanged and the count is its length. -/
def all_session_ids (st : List Session) : Nat × List String :=
  (st.length, st.map fun s => s.id)

/-- Table states reachable through the mutating endpoints of the service,
starting from the empty table.  Read-only endpoints (`get_photo_time`,
`get_session_id`, `all_session_ids`, `inactive_sessions`) do not change the
table. -/
inductive Reachable : List Session → Prop where
  | nil : Reachable []
  | start (st : List Session) (d : StartPatrol) (i : String) (t : Int) :
      Reachable st → Reachable (start_patrol st d i t).1
  | pause (st : List Session) (sid : String) (t : Int) (st' : List Session)
      (s : Session) : Reachable st →
      pause_patrol st sid t = .ok (st', s) → Reachable st'
  | endp (st : List Session) (sid : String) (st' : List Session)
      (s : Session) : Reachable st →
      end_patrol st sid = .ok (st', s) → Reachable st'
  | cleanup (st : List Session) (m : Int) (t : Int) :
      Reachable st → Reachable (cleanup_sessions st m t).1

/-! Concrete sample data, used to evaluate the operations on explicit
inputs.  All sample sessions have `photo_time = 0`, so they are stale for
any scan with a positive cutoff. -/

/-- Sample session A: sender `a@x`, receiver `r@x`. -/
def sessA : Session :=
  { id := "idA", first_name := "Alice", last_name := "Ang"
    sender_email := "a@x", receiver_email := "r@x"
    start_time := 0, photo_time := 0, status := "active" }

/-- Sample session B: sender `b@x`, receiver `r@x` (same receiver as A). -/
def sessB : Session :=
  { id := "idB", first_name := "Bob", last_name := "Bar"
    sender_email := "b@x", receiver_email := "r@x"
    start_time := 0, photo_time := 0, status := "active" }

/-- Sample session C: sender `c@x`, receiver `s@x`. -/
def sessC : Session :=
  { id := "idC", first_name := "Cara", last_name := "Cole"
    sender_email := "c@x", receiver_email := "s@x"
    start_time := 0, photo_time := 0, status := "active" }

/-- Sample session D: shares sender `a@x` with session A but is a distinct
session (different id, name, receiver). -/
def sessD : Session :=
  { id := "idD", first_name := "Dan", last_name := "Doe"
    sender_email := "a@x", receiver_email := "s@x"
    start_time := 0, photo_time := 0, status := "active" }

/-- The three-session store of the grouping example: A and B report to
`r@x`, C reports to `s@x`. -/
def storeABC : List Session := [sessA, sessB, sessC]

/-- A store whose two sessions share the sender address `a@x`. -/
def storeAD : List Session := [sessA, sessD]

/-- Two active sessions sharing all four identity fields (distinct ids). -/
def sessP1 : Session :=
  { id := "id1", first_name := "Pat", last_name := "Lee"
    sender_email := "p@x", receiver_email := "q@x"
    start_time := 0, photo_time := 0, status := "active" }

/-- Second active session with the same identity tuple as `sessP1`. -/
def sessP2 : Session :=
  { id := "id2", first_name := "Pat", last_name := "Lee"
    sender_email := "p@x", receiver_email := "q@x"
    start_time := 0, photo_time := 0, status := "active" }

/-- The lookup query matching `sessP1` and `sessP2`. -/
def queryPL : LookupPatrol :=
  { first_name := "Pat", last_name := "Lee"
    sender_email := "p@x", receiver_email := "q@x" }

/-- Request body used to build small reachable stores. -/
def startDataA : StartPatrol :=
  { first_name := "Alice", last_name := "Ang"
    sender_email := "a@x", receiver_email := "r@x" }

/-! ## Helper lemmas -/

theorem pauseUpd_id (sid : String) (t : Int) (s : Session) :
    (pauseUpd sid t s).id = s.id := by
  unfold pauseUpd; split <;> rfl

theorem pauseUpd_status (sid : String) (t : Int) (s : Session) :
    (pauseUpd sid t s).status = s.status := by
  unfold pauseUpd; split <;> rfl

theorem pause_patrol_ok_store {st st' : List Session} {sid : String}
    {t : Int} {s' : Session} (h : pause_patrol st sid t = .ok (st', s')) :
    st' = st.map (pauseUpd sid t) := by
  simp only [pause_patrol] at h
  split at h
  · exact absurd h (by simp)
  · rw [Except.ok.injEq, Prod.mk.injEq] at h
    exact h.1.symm

theorem pause_patrol_ok_row {st st' : List Session} {sid : String}
    {t : Int} {s' : Session} (h : pause_patrol st sid t = .ok (st', s')) :
    s' ∈ (st.map (pauseUpd sid t)).filter (fun s => s.id == sid) := by
  simp only [pause_patrol] at h
  split at h
  · exact absurd h (by simp)
  · rw [Except.ok.injEq, Prod.mk.injEq] at h
    rename_i d l hf
    rw [hf, ← h.2]
    exact List.mem_cons_self d l

theorem end_patrol_ok_store {st st' : List Session} {sid : String}
    {s' : Session} (h : end_patrol st sid = .ok (st', s')) :
    st' = st.filter (fun s => !(s.id == sid)) := by
  simp only [end_patrol] at h
  split at h
  · exact absurd h (by simp)
  · rw [Except.ok.injEq, Prod.mk.injEq] at h
    exact h.1.symm

theorem pause_patrol_no_match {st : List Session} {sid : String} {t : Int}
    (h : ∀ s ∈ st, s.id ≠ sid) :
    pause_patrol st sid t = .error .notFound := by
  have hf : (st.map (pauseUpd sid t)).filter (fun s => s.id == sid) = [] := by
    rw [List.filter_eq_nil_iff]
    intro a ha
    obtain ⟨x, hx, rfl⟩ := List.mem_map.1 ha
    simp [pauseUpd_id, h x hx]
  simp only [pause_patrol, hf]

theorem pause_patrol_ok_photo {st st' : List Session} {sid : String}
    {t : Int} {s' : Session} (h : pause_patrol st sid t = .ok (st', s')) :
    s'.photo_time = now_iso t := by
  have hrow := pause_patrol_ok_row h
  rw [List.mem_filter] at hrow
  obtain ⟨hmem, hid⟩ := hrow
  obtain ⟨x, _, rfl⟩ := List.mem_map.1 hmem
  by_cases hx : x.id = sid
  · simp [pauseUpd, hx]
  · simp [pauseUpd, hx] at hid

theorem reachable_status_active {st : List Session} (h : Reachable st) :
    ∀ s ∈ st, s.status = "active" := by
  induction h with
  | nil => intro s hs; exact absurd hs (List.not_mem_nil s)
  | start st d i t _ ih =>
      intro s hs
      rcases List.mem_append.1 hs with hs | hs
      · exact ih s hs
      · rw [List.mem_singleton.1 hs]
  | pause st sid t st' s0 _ hp ih =>
      intro s hs
      rw [pause_patrol_ok_store hp] at hs
      obtain ⟨x, hx, rfl⟩ := List.mem_map.1 hs
      rw [pauseUpd_status]
      exact ih x hx
  | endp st sid st' s0 _ he ih =>
      intro s hs
      rw [end_patrol_ok_store he] at hs
      exact ih s (List.mem_of_mem_filter hs)
  | cleanup st m t _ ih =>
      intro s hs
      exact ih s (List.mem_of_mem_filter hs)

/-! ## Claims -/

/-- Claim C5: immediately after `start_patrol`, the inserted session has
`photo_time = start_time = now_iso t` (the single clock reading of the
request) and status `"active"`; the new table is the old one with exactly
that row appended. -/
theorem c5_create_initializes_both_timestamps (st : List Session)
    (d : StartPatrol) (i : String) (t : Int) :
    (start_patrol st d i t).2.start_time = now_iso t ∧
    (start_patrol st d i t).2.photo_time = now_iso t ∧
    (start_patrol st d i t).2.photo_time = (start_patrol st d i t).2.start_time ∧
    (start_patrol st d i t).2.status = "active" ∧
    (start_patrol st d i t).1 = st ++ [(start_patrol st d i t).2] :=
  ⟨rfl, rfl, rfl, rfl, rfl⟩

/-- Claim C3 (amended): the object returned by the scan carries exactly
the threshold used and the number of expired sessions found — and nothing
else; in particular no notification counts. -/
theorem c3_result_is_threshold_and_count (st : List Session) (m t : Int) :
    (inactive_sessions st m t).1 =
      { minutes_threshold := m
        expired_sessions_count := (expiredSessions st m t).length } := rfl

/-- Claim C3 counterexample: on the three-session store the scan queues
one direct e-mail and one summary e-mail, yet the returned object is
exactly `{minutes_threshold := 7, expired_sessions_count := 3}` — neither
of its two components carries the queued-notification counts (both equal
1 here). -/
theorem c3_counterexample :
    (directEmails storeABC 7 10000).length = 1 ∧
    (summaryEmails storeABC 7 10000).length = 1 ∧
    (inactive_sessions storeABC 7 10000).1 =
      { minutes_threshold := 7, expired_sessions_count := 3 } ∧
    (inactive_sessions storeABC 7 10000).1.minutes_threshold ≠ 1 ∧
    (inactive_sessions storeABC 7 10000).1.expired_sessions_count ≠ 1 := by
  refine ⟨rfl, rfl, rfl, by decide, by decide⟩

/-- Claim C6: the stale-session query is capped at `scanLimit = 100`
rows: the scan's expired set is the first 100 rows of the full stale
filter, so the reported count is `min 100` of the number of stale active
rows and never exceeds 100; a store with 150 stale sessions yields a
count of exactly 100. -/
theorem c6_scan_cap (st : List Session) (m t : Int) :
    expiredSessions st m t =
      (st.filter fun s =>
        decide (s.photo_time < t - m * 60) && s.status == "active").take 100 ∧
    (inactive_sessions st m t).1.expired_sessions_count =
      min 100 (st.filter fun s =>
        decide (s.photo_time < t - m * 60) && s.status == "active").length ∧
    (inactive_sessions st m t).1.expired_sessions_count ≤ 100 ∧
    (inactive_sessions (List.replicate 150 sessA) 7 10000).1.expired_sessions_count
      = 100 := by
  refine ⟨rfl, ?_, ?_, by decide⟩
  · simp [inactive_sessions, expiredSessions, scanLimit, List.length_take]
  · simp [inactive_sessions, expiredSessions, scanLimit, List.length_take]

/-- Claim C7: the scan handler only executes a `select`, so it returns the
table unchanged; scanning twice in succession on the resulting table with
the same threshold and the same clock reading reports the same
`expired_sessions_count` both times. -/
theorem c7_scan_is_readonly_and_idempotent (st : List Session) (m t : Int) :
    (inactive_sessions st m t).2.2 = st ∧
    (inactive_sessions ((inactive_sessions st m t).2.2) m t).1.expired_sessions_count
      = (inactive_sessions st m t).1.expired_sessions_count :=
  ⟨rfl, rfl⟩

/-- Claim C1 counterexample: for expired sessions A(sender `a@x`,
receiver `r@x`), B(`b@x`, `r@x`), C(`c@x`, `s@x`) the scan queues exactly
ONE grouped/summary notification, addressed to the hard-coded address
`shivamminocha84@gmail.com` — not two notifications addressed to `r@x`
and `s@x`. -/
theorem c1_counterexample :
    (expiredSessions storeABC 7 10000).length = 3 ∧
    (summaryEmails storeABC 7 10000).length = 1 ∧
    (summaryEmails storeABC 7 10000).map Email.to_emails
      = [["shivamminocha84@gmail.com"]] ∧
    ((directEmails storeABC 7 10000 ++ summaryEmails storeABC 7 10000).map
      Email.to_emails) = [["a@x", "b@x", "c@x"], ["shivamminocha84@gmail.com"]] := by
  refine ⟨rfl, rfl, rfl, rfl⟩

/-- Claim C1 (amended): whenever the expired set is non-empty the scan
queues exactly one summary notification, always addressed to the single
hard-coded address, whose body lists the display strings of ALL expired
sessions of the scan, across all receivers (the stale query does not even
select `receiver_email`). -/
theorem c1_single_summary_to_fixed_address (st : List Session) (m t : Int)
    (h : expiredSessions st m t ≠ []) :
    (summaryEmails st m t).length = 1 ∧
    (summaryEmails st m t).map Email.to_emails
      = [["shivamminocha84@gmail.com"]] ∧
    (summaryEmails st m t).map Email.body =
      ["The following guards have been inactive:\n\n" ++
        String.intercalate "\n" ((expiredSessions st m t).map displayLine)] := by
  refine ⟨?_, ?_, ?_⟩ <;> simp [summaryEmails, h]

/-- Witness for `c1_single_summary_to_fixed_address` at the three-session
store. -/
theorem c1_single_summary_witness :
    (summaryEmails storeABC 7 10000).length = 1 ∧
    (summaryEmails storeABC 7 10000).map Email.to_emails
      = [["shivamminocha84@gmail.com"]] ∧
    (summaryEmails storeABC 7 10000).map Email.body =
      ["The following guards have been inactive:\n\n" ++
        String.intercalate "\n" ((expiredSessions storeABC 7 10000).map displayLine)] :=
  c1_single_summary_to_fixed_address storeABC 7 10000 (by decide)

/-- Claim C2 counterexample: two expired sessions sharing the sender
`a@x` yield a single queued direct e-mail, with the deduplicated
recipient list `["a@x"]` and a fixed generic body that carries no
session display name — not one notification per expired session. -/
theorem c2_counterexample :
    (expiredSessions storeAD 7 10000).length = 2 ∧
    (directEmails storeAD 7 10000).length = 1 ∧
    (directEmails storeAD 7 10000).map Email.to_emails = [["a@x"]] ∧
    (directEmails storeAD 7 10000).map Email.body =
      ["You have been found inactive for the last few minutes. Please keep sending photos."] := by
  refine ⟨rfl, rfl, rfl, rfl⟩

/-- Claim C2 (amended): whenever the expired set is non-empty the scan
queues exactly one direct e-mail, addressed to the deduplicated list of
the expired sessions' sender addresses, with a fixed subject and a fixed
generic body that does not mention any session's display name. -/
theorem c2_single_direct_email (st : List Session) (m t : Int)
    (h : expiredSessions st m t ≠ []) :
    (directEmails st m t).length = 1 ∧
    (directEmails st m t).map Email.to_emails =
      [((expiredSessions st m t).map (fun s => s.sender_email)).dedup] ∧
    (directEmails st m t).map Email.body =
      ["You have been found inactive for the last few minutes. Please keep sending photos."] := by
  have hne : ((expiredSessions st m t).map (fun s => s.sender_email)).dedup ≠ [] := by
    intro hc
    rw [List.dedup_eq_nil, List.map_eq_nil_iff] at hc
    exact h hc
  refine ⟨?_, ?_, ?_⟩ <;> simp [directEmails, hne]

/-- Witness for `c2_single_direct_email` at the shared-sender store. -/
theorem c2_single_direct_witness :
    (directEmails storeAD 7 10000).length = 1 ∧
    (directEmails storeAD 7 10000).map Email.to_emails =
      [((expiredSessions storeAD 7 10000).map (fun s => s.sender_email)).dedup] ∧
    (directEmails storeAD 7 10000).map Email.body =
      ["You have been found inactive for the last few minutes. Please keep sending photos."] :=
  c2_single_direct_email storeAD 7 10000 (by decide)

/-- Claim C4: on every reachable table (where every stored row has status
`"active"` — see `reachable_status_active`), `cleanup_sessions` deletes
exactly the active sessions with `photo_time` older than `now - minutes`,
reports exactly that set as `deleted_sessions`, and keeps every other row
unchanged and retrievable (the remaining table is the complementary
filter and a sublist of the original). -/
theorem c4_cleanup_removes_exactly_stale (st : List Session) (m t : Int)
    (hr : Reachable st) :
    (cleanup_sessions st m t).2.deleted_sessions =
      st.filter (fun s => decide (s.photo_time < t - m * 60) && s.status == "active") ∧
    (cleanup_sessions st m t).1 =
      st.filter (fun s => !decide (s.photo_time < t - m * 60)) ∧
    (cleanup_sessions st m t).1.Sublist st ∧
    ∀ s ∈ st, ¬(s.photo_time < t - m * 60) → s ∈ (cleanup_sessions st m t).1 := by
  have hact := reachable_status_active hr
  refine ⟨?_, rfl, List.filter_sublist st, ?_⟩
  · show st.filter (fun s => decide (s.photo_time < t - m * 60)) = _
    apply List.filter_congr
    intro a ha
    simp [hact a ha]
  · intro s hs hns
    show s ∈ st.filter (fun s => !decide (s.photo_time < t - m * 60))
    rw [List.mem_filter]
    exact ⟨hs, by simp [hns]⟩

/-- Witness for `c4_cleanup_removes_exactly_stale`: a reachable one-row
table built by `start_patrol` at clock 100, cleaned up at clock 10000 with
a one-minute threshold. -/
theorem c4_cleanup_witness :
    (cleanup_sessions (start_patrol [] startDataA "idA" 100).1 1 10000).2.deleted_sessions =
      (start_patrol [] startDataA "idA" 100).1.filter
        (fun s => decide (s.photo_time < 10000 - 1 * 60) && s.status == "active") ∧
    (cleanup_sessions (start_patrol [] startDataA "idA" 100).1 1 10000).1 =
      (start_patrol [] startDataA "idA" 100).1.filter
        (fun s => !decide (s.photo_time < 10000 - 1 * 60)) ∧
    (cleanup_sessions (start_patrol [] startDataA "idA" 100).1 1 10000).1.Sublist
      (start_patrol [] startDataA "idA" 100).1 :=
  ⟨(c4_cleanup_removes_exactly_stale (start_patrol [] startDataA "idA" 100).1 1 10000
      (Reachable.start [] startDataA "idA" 100 Reachable.nil)).1,
   (c4_cleanup_removes_exactly_stale (start_patrol [] startDataA "idA" 100).1 1 10000
      (Reachable.start [] startDataA "idA" 100 Reachable.nil)).2.1,
   (c4_cleanup_removes_exactly_stale (start_patrol [] startDataA "idA" 100).1 1 10000
      (Reachable.start [] startDataA "idA" 100 Reachable.nil)).2.2.1⟩

/-- Claim C8: a heartbeat (`pause_patrol`) on an id with no row fails with
404; after `end_patrol` deleted an id, a heartbeat on that id fails with
404; and a successful heartbeat sets the row's `photo_time` to the
request's clock reading, so it never decreases `photo_time` as long as the
clock reading is not older than the stored one. -/
theorem c8_heartbeat_notfound_and_monotone (st : List Session)
    (sid : String) (t t' : Int) :
    ((∀ s ∈ st, s.id ≠ sid) → pause_patrol st sid t = .error .notFound) ∧
    (∀ stE sE, end_patrol st sid = .ok (stE, sE) →
      pause_patrol stE sid t' = .error .notFound) ∧
    (∀ st' s', pause_patrol st sid t = .ok (st', s') →
      s'.photo_time = now_iso t ∧
      ∀ old ∈ st, old.id = sid → old.photo_time ≤ now_iso t →
        old.photo_time ≤ s'.photo_time) := by
  refine ⟨fun h => pause_patrol_no_match h, ?_, ?_⟩
  · intro stE sE he
    apply pause_patrol_no_match
    intro s hs
    rw [end_patrol_ok_store he] at hs
    have hb := (List.mem_filter.1 hs).2
    simpa using hb
  · intro st' s' hp
    refine ⟨pause_patrol_ok_photo hp, ?_⟩
    intro old _ _ hle
    rw [pause_patrol_ok_photo hp]
    exact hle

/-- Witness for `c8_heartbeat_notfound_and_monotone`: 404 on an unknown
id, 404 on a terminated id, and a non-decreasing heartbeat on a live
row. -/
theorem c8_heartbeat_witness :
    pause_patrol [sessP1] "zz" 0 = .error .notFound ∧
    pause_patrol [] "id1" 5 = .error .notFound ∧
    (pauseUpd "id1" 7 sessP1).photo_time = now_iso 7 ∧
    sessP1.photo_time ≤ (pauseUpd "id1" 7 sessP1).photo_time :=
  ⟨(c8_heartbeat_notfound_and_monotone [sessP1] "zz" 0 0).1 (by decide),
   (c8_heartbeat_notfound_and_monotone [sessP1] "id1" 0 5).2.1 [] sessP1 rfl,
   ((c8_heartbeat_notfound_and_monotone [sessP1] "id1" 7 0).2.2
      [pauseUpd "id1" 7 sessP1] (pauseUpd "id1" 7 sessP1) rfl).1,
   ((c8_heartbeat_notfound_and_monotone [sessP1] "id1" 7 0).2.2
      [pauseUpd "id1" 7 sessP1] (pauseUpd "id1" 7 sessP1) rfl).2 sessP1
      (List.mem_singleton_self sessP1) rfl (by decide)⟩

/-- Claim C9 counterexample: two distinct active sessions share the same
identity tuple; the lookup returns whichever matching row comes first in
the backend's enumeration, so on two row orders of the SAME session set
(a permutation) it returns different sessions — the pick is not
determined by the store state. -/
theorem c9_counterexample :
    get_session_id [sessP1, sessP2] queryPL = .ok sessP1 ∧
    get_session_id [sessP2, sessP1] queryPL = .ok sessP2 ∧
    sessP1 ≠ sessP2 ∧
    [sessP1, sessP2].Perm [sessP2, sessP1] ∧
    matchesQuery queryPL sessP1 = true ∧ matchesQuery queryPL sessP2 = true :=
  ⟨rfl, rfl, by decide, List.Perm.swap sessP2 sessP1 [], rfl, rfl⟩

/-- Claim C9 (amended): `get_session_id` returns the first row matching
all four identity fields with status active in the backend's row order —
it succeeds whenever a matching row exists and only ever returns a
matching active member of the table; the query sets no ordering, so the
choice among several matching sessions depends on that row order rather
than on a deterministic policy over the session set. -/
theorem c9_lookup_first_match (st : List Session) (q : LookupPatrol)
    (s : Session) :
    (st.filter (matchesQuery q) ≠ [] → (get_session_id st q).isOk = true) ∧
    (get_session_id st q = .ok s →
      s ∈ st ∧ matchesQuery q s = true ∧ s.status = "active") := by
  constructor
  · intro h
    unfold get_session_id
    cases hf : st.filter (matchesQuery q) with
    | nil => exact absurd hf h
    | cons a l => rfl
  · intro h
    unfold get_session_id at h
    cases hf : st.filter (matchesQuery q) with
    | nil => rw [hf] at h; exact absurd h (by simp)
    | cons a l =>
        rw [hf, Except.ok.injEq] at h
        subst h
        have ha : a ∈ st.filter (matchesQuery q) := by
          rw [hf]; exact List.mem_cons_self a l
        rcases List.mem_filter.1 ha with ⟨hmem, hq⟩
        refine ⟨hmem, hq, ?_⟩
        have hq2 := hq
        simp [matchesQuery] at hq2
        exact hq2.2

/-- Witness for `c9_lookup_first_match` on a one-row table. -/
theorem c9_lookup_witness :
    (get_session_id [sessP1] queryPL).isOk = true ∧
    (sessP1 ∈ [sessP1] ∧ matchesQuery queryPL sessP1 = true ∧
      sessP1.status = "active") :=
  ⟨(c9_lookup_first_match [sessP1] queryPL sessP1).1 (by decide),
   (c9_lookup_first_match [sessP1] queryPL sessP1).2 rfl⟩

/-- Claim C10: in every table state reachable through the service's
mutating endpoints, every stored row has status `"active"`: the insert of
`start_patrol` is the only row creation and always writes `"active"`,
`pause_patrol` touches only `photo_time`, and `end_patrol` and
`cleanup_sessions` physically delete rows; hence no endpoint can ever
observe a non-active session. -/
theorem c10_every_stored_session_active (st : List Session) (s : Session)
    (hr : Reachable st) (hs : s ∈ st) : s.status = "active" :=
  reachable_status_active hr s hs

/-- Witness for `c10_every_stored_session_active`: the row inserted by a
concrete `start_patrol` call into the empty table. -/
theorem c10_active_witness :
    (start_patrol [] startDataA "idA" 5).2.status = "active" :=
  c10_every_stored_session_active (start_patrol [] startDataA "idA" 5).1
    (start_patrol [] startDataA "idA" 5).2
    (Reachable.start [] startDataA "idA" 5 Reachable.nil)
    (by simp [start_patrol])
